import Mathlib

/-!
# Verification of the capucho-back update-resolution service

Shallow embedding of the OTA update backend's core logic:

* JavaScript string/number coercion helpers (`parseInt`, `||` defaulting,
  truthiness) as they are used by the service code;
* `compareVersions` from `src/services/supabaseService.ts` (the
  `UpdateService` class contained in that file);
* the `checkForUpdate`, `assignChannel` flows of that `UpdateService`
  over an explicit database state, with an oracle describing which
  side-effect writes fail;
* `getAvailableChannels` of the older `UpdateService` in
  `src/services/updateService.ts`.

Theorems at the end settle the frozen claims about this code.
-/

namespace Capucho

/-- Decidable equality for `Except`, needed to evaluate the embedded
effectful operations on concrete inputs. -/
instance {ε α : Type} [DecidableEq ε] [DecidableEq α] :
    DecidableEq (Except ε α) := fun a b =>
  match a, b with
  | Except.error e, Except.error f => decidable_of_iff (e = f) (by simp)
  | Except.error _, Except.ok _ => isFalse (by simp)
  | Except.ok _, Except.error _ => isFalse (by simp)
  | Except.ok x, Except.ok y => decidable_of_iff (x = y) (by simp)

/-! ## JavaScript semantics helpers -/

/-- Truthiness of a JS string value that may be `undefined`/`null`
(modelled as `none`): only a present, non-empty string is truthy. -/
def jsTruthy (o : Option String) : Bool :=
  match o with
  | some s => s ≠ ""
  | none => false

/-- `a || d` for a possibly-absent JS string with a string default:
returns the string if truthy, otherwise the default. -/
def jsOrS (o : Option String) (d : String) : String :=
  match o with
  | some s => if s = "" then d else s
  | none => d

/-- `a || b` where both operands are possibly-absent JS strings:
JS `||` returns the second operand verbatim when the first is falsy. -/
def jsOrOpt (a b : Option String) : Option String :=
  if jsTruthy a then a else b

/-- `x || undefined`: a falsy value (absent or empty string) becomes
`undefined`, a truthy string is kept. -/
def jsOrUndef (s : Option String) : Option String :=
  if jsTruthy s then s else none

/-- Numeric value of a character under a given radix (supports decimal
digits and hexadecimal letters), `none` when the character is not a
digit of that radix. -/
def digitValue (radix : Nat) (c : Char) : Option Nat :=
  let v : Option Nat :=
    if '0' ≤ c ∧ c ≤ '9' then some (c.toNat - '0'.toNat)
    else if 'a' ≤ c ∧ c ≤ 'f' then some (c.toNat - 'a'.toNat + 10)
    else if 'A' ≤ c ∧ c ≤ 'F' then some (c.toNat - 'A'.toNat + 10)
    else none
  match v with
  | some v => if v < radix then some v else none
  | none => none

/-- Accumulate the longest prefix of digits of the given radix. -/
def parseDigitsGo (radix : Nat) (acc : Nat) : List Char → Nat
  | [] => acc
  | c :: cs =>
    match digitValue radix c with
    | some v => parseDigitsGo radix (acc * radix + v) cs
    | none => acc

/-- Parse the longest non-empty prefix of radix digits; `none` when the
input does not start with a digit (JS `NaN`). -/
def parseDigits (radix : Nat) : List Char → Option Nat
  | [] => none
  | c :: cs =>
    match digitValue radix c with
    | some v => some (parseDigitsGo radix v cs)
    | none => none

/-- Drop leading JS whitespace. -/
def stripWS : List Char → List Char
  | [] => []
  | c :: cs =>
    if c = ' ' ∨ c = '\t' ∨ c = '\n' ∨ c = '\r' then stripWS cs else c :: cs

/-- The unsigned part of JS `parseInt` (after sign handling): a `0x`/`0X`
prefix switches to hexadecimal, otherwise decimal. -/
def jsParseUnsigned : List Char → Option Nat
  | '0' :: 'x' :: rest => parseDigits 16 rest
  | '0' :: 'X' :: rest => parseDigits 16 rest
  | cs => parseDigits 10 cs

/-- JS `parseInt(s)` (radix argument omitted, as in the source): skip
leading whitespace, optional sign, optional hex prefix, longest digit
prefix; `none` models `NaN`. -/
def jsParseIntChars (cs : List Char) : Option Int :=
  match stripWS cs with
  | '-' :: rest => (jsParseUnsigned rest).map (fun n => -(n : Int))
  | '+' :: rest => (jsParseUnsigned rest).map (fun n => (n : Int))
  | rest => (jsParseUnsigned rest).map (fun n => (n : Int))

/-- `parseInt(s) || 0` on a character list: `NaN` collapses to `0`
(`0 || 0` is also `0`, so `getD 0` is exact). -/
def jsParseIntOr0Chars (cs : List Char) : Int :=
  (jsParseIntChars cs).getD 0

/-- `parseInt(s) || 0` on a string. -/
def jsParseIntOr0 (s : String) : Int :=
  jsParseIntOr0Chars s.toList

/-! ## `compareVersions` (UpdateService.compareVersions) -/

/-- `v.split(".")` on the character level: splitting on `'.'` keeping
empty segments, one empty segment for the empty string (JS
`"".split(".") == [""]`). -/
def splitDotChars : List Char → List (List Char)
  | [] => [[]]
  | c :: rest =>
    if c = '.' then [] :: splitDotChars rest
    else
      match splitDotChars rest with
      | s :: ss => (c :: s) :: ss
      | [] => [[c]]

/-- `v.split(".").map((p) => parseInt(p) || 0)`. -/
def versionSegs (v : String) : List Int :=
  (splitDotChars v.toList).map jsParseIntOr0Chars

/-- Pad a segment list with trailing zeros up to length `n`
(the `while (parts.length < maxLen) parts.push(0)` loops). -/
def padZeros (l : List Int) (n : Nat) : List Int :=
  l ++ List.replicate (n - l.length) 0

/-- The comparison loop of `compareVersions`: first index where the
segments differ decides; equal lists compare as `0`. -/
def cmpSegs : List Int → List Int → Int
  | x :: xs, y :: ys =>
    if x > y then 1 else if x < y then -1 else cmpSegs xs ys
  | _, _ => 0

/-- `UpdateService.compareVersions` from `supabaseService.ts`:
split on `.`, `parseInt(p) || 0` per segment, pad to equal length with
zeros, compare segment-by-segment. -/
def compareVersions (v1 v2 : String) : Int :=
  let parts1 := versionSegs v1
  let parts2 := versionSegs v2
  let maxLen := max parts1.length parts2.length
  cmpSegs (padZeros parts1 maxLen) (padZeros parts2 maxLen)


/-! ## Data model (Supabase tables used by the UpdateService) -/

/-- A row of the `apps` table: surrogate `id` and external `app_id`. -/
structure AppRow where
  id : String
  app_id : String
deriving DecidableEq, Repr

/-- A row of the `channels` table.  `current_version_id` is the channel's
active-bundle pointer; `is_public` and `allow_device_self_set` are the
policy flags stored with the channel. -/
structure ChannelRow where
  id : String
  app_id : String
  name : String
  current_version_id : Option String
  is_public : Bool
  allow_device_self_set : Bool
deriving DecidableEq, Repr

/-- A row of the `app_versions` table (a published bundle). -/
structure VersionRow where
  id : String
  version_name : String
  external_url : Option String
  r2_path : Option String
  checksum : Option String
  session_key : Option String
  min_update_version : Option String
  platform : String
  active : Bool
deriving DecidableEq, Repr

/-- A row of the `device_channels` table (a device-to-channel mapping). -/
structure DeviceChannelRow where
  id : String
  device_id : String
  channel_id : String
  platform : String
deriving DecidableEq, Repr

/-- A row of the `update_logs` table (one check-in event). -/
structure LogRow where
  device_id : String
  app_id : String
  current_version : Option String
  new_version : String
  platform : String
  action : String
deriving DecidableEq, Repr

/-- The database state visible to the UpdateService. -/
structure Db where
  apps : List AppRow
  channels : List ChannelRow
  app_versions : List VersionRow
  device_channels : List DeviceChannelRow
  update_logs : List LogRow
deriving DecidableEq, Repr

/-- A device-check request (`UpdateRequest` in `types`), with the extra
`default_channel` alias the code also reads.  Absent JS fields are
`none`; `platform` is a plain string where `""` is the falsy case. -/
structure UpdateRequest where
  appId : String
  platform : String
  version_name : Option String
  channel : Option String
  defaultChannel : Option String
  default_channel : Option String
  deviceId : Option String
  versionCode : Option String
  versionBuild : Option String
deriving DecidableEq, Repr

/-- The polymorphic response object of `checkForUpdate`; every field is
optional, the empty object is all-`none`. -/
structure UpdateResponse where
  message : Option String := none
  error : Option String := none
  version_name : Option String := none
  url : Option String := none
  checksum : Option String := none
  sessionKey : Option String := none
deriving DecidableEq, Repr

/-- Outcomes of the best-effort side-effect writes inside
`checkForUpdate`: whether the `update_logs` insert and the
`device_channels` insert throw a `DatabaseError`. -/
structure WriteOracle where
  logInsertFails : Bool
  dcInsertFails : Bool
deriving DecidableEq, Repr

/-- The oracle under which every side-effect write succeeds. -/
def honest : WriteOracle := ⟨false, false⟩

/-! ## Query helpers (translations of the individual Supabase queries) -/

/-- `resolveAppUuid`: `select id from apps where app_id = ...`, first row
if any (query errors are caught and collapse to `null`). -/
def resolveAppUuid (db : Db) (appIdString : String) : Option String :=
  ((db.apps.filter (fun a => a.app_id = appIdString)).head?).map (fun a => a.id)

/-- The `.single()` channel lookup by `(app_id, name)`: exactly one
matching row, anything else is the error case. -/
def singleChannel (db : Db) (appUuid nm : String) : Option ChannelRow :=
  match db.channels.filter (fun c => c.app_id = appUuid ∧ c.name = nm) with
  | [c] => some c
  | _ => none

/-- Fetch an `app_versions` row by id (the embedded
`app_versions!current_version_id` join). -/
def versionById (db : Db) (vid : String) : Option VersionRow :=
  (db.app_versions.filter (fun v => v.id = vid)).head?

/-- The channel's active-bundle pointer dereferenced: `null` when the
pointer is `null` or dangling. -/
def bundleOf (db : Db) (c : ChannelRow) : Option VersionRow :=
  c.current_version_id.bind (versionById db)

/-- `maybeSingle()` on `device_channels` by `(device_id, channel_id)`:
`data` is non-null only when exactly one row matches (two or more rows
make `maybeSingle` report an error, whose `data` is null). -/
def maybeSingleDC (db : Db) (dev chId : String) : Option DeviceChannelRow :=
  match db.device_channels.filter
      (fun x => x.device_id = dev ∧ x.channel_id = chId) with
  | [x] => some x
  | _ => none

/-! ## `checkForUpdate` (UpdateService in supabaseService.ts) -/

/-- The effective channel name:
`request.channel || request.defaultChannel || request.default_channel || "staging"`.
No database state is consulted. -/
def channelToUse (r : UpdateRequest) : String :=
  jsOrS r.channel (jsOrS r.defaultChannel (jsOrS r.default_channel "staging"))

/-- `parseInt(request.versionCode || request.versionBuild || "0") || 0`. -/
def userNativeVersion (r : UpdateRequest) : Int :=
  jsParseIntOr0 (jsOrS r.versionCode (jsOrS r.versionBuild "0"))

/-- Version normalization:
`request.version_name === "builtin" ? "0.0.0" : request.version_name || "0.0.0"`. -/
def normCurrentVersion (r : UpdateRequest) : String :=
  if r.version_name = some "builtin" then "0.0.0"
  else jsOrS r.version_name "0.0.0"

/-- `parseInt(latestUpdate.min_update_version || "0") || 0`. -/
def minNativeRequired (b : VersionRow) : Int :=
  jsParseIntOr0 (jsOrS b.min_update_version "0")

/-- `generateDownloadUrl`: every branch of the source function (URL
parses, URL has no `public` path component, URL constructor throws)
returns `downloadUrl` unchanged — the signed-URL code is commented out. -/
def generateDownloadUrl (downloadUrl : Option String) : Option String :=
  downloadUrl

/-- The update-available response built for bundle `b`. -/
def availableFor (b : VersionRow) : UpdateResponse :=
  { version_name := some b.version_name
    url := generateDownloadUrl (jsOrOpt b.external_url b.r2_path)
    checksum := b.checksum
    sessionKey := jsOrUndef b.session_key }

/-- The native-gating response for minimum `m` and reported build `u`. -/
def nativeGateResponse (m u : Int) : UpdateResponse :=
  { message := some "native_update_required"
    error := some ("Native version " ++ toString m ++ " required. You have "
      ++ toString u ++ ".") }

/-- The `update_logs` row inserted on the update-available path. -/
def checkLogRow (r : UpdateRequest) (appUuid : String) (b : VersionRow) :
    LogRow :=
  { device_id := r.deviceId.getD ""
    app_id := appUuid
    current_version := r.version_name
    new_version := b.version_name
    platform := r.platform
    action := "get" }

/-- "Also register the device in device_channels if it doesn't exist":
insert a `device_channels` row when no single row matches
`(deviceId, channelId)`; a failing insert throws. -/
def registerDeviceChannel (db1 : Db) (o : WriteOracle)
    (dev chId plat : String) : Except String Db :=
  match maybeSingleDC db1 dev chId with
  | some _ => Except.ok db1
  | none =>
    if o.dcInsertFails then Except.error "Insert failed"
    else
      Except.ok { db1 with device_channels := db1.device_channels ++
        [{ id := ""
           device_id := dev
           channel_id := chId
           platform := plat }] }

/-- The side-effect block guarded by `if (request.deviceId)`: insert the
`update_logs` event, then register the device in `device_channels`.  A
failing insert throws, which the outer `catch` rethrows. -/
def checkSideEffects (db : Db) (o : WriteOracle) (r : UpdateRequest)
    (appUuid : String) (ch : ChannelRow) (b : VersionRow) :
    Except String Db :=
  if jsTruthy r.deviceId then
    if o.logInsertFails then Except.error "Insert failed"
    else
      registerDeviceChannel
        { db with update_logs := db.update_logs ++ [checkLogRow r appUuid b] }
        o (r.deviceId.getD "") ch.id r.platform
  else Except.ok db

/-- `UpdateService.checkForUpdate` from `supabaseService.ts`, over an
explicit database state and write oracle.  Returns the response paired
with the resulting database state, or the thrown error. -/
def checkForUpdate (db : Db) (o : WriteOracle) (r : UpdateRequest) :
    Except String (UpdateResponse × Db) :=
  match resolveAppUuid db r.appId with
  | none => Except.ok ({ message := some "App not found" }, db)
  | some appUuid =>
    match singleChannel db appUuid (channelToUse r) with
    | none => Except.ok ({}, db)
    | some channelData =>
      match bundleOf db channelData with
      | none => Except.ok ({}, db)
      | some latestUpdate =>
        if r.platform ≠ "" ∧ latestUpdate.platform ≠ r.platform then
          Except.ok ({}, db)
        else if ¬ (compareVersions latestUpdate.version_name
            (normCurrentVersion r) > 0) then
          Except.ok ({ message := some "No update available" }, db)
        else if minNativeRequired latestUpdate > 0 ∧
            userNativeVersion r < minNativeRequired latestUpdate then
          Except.ok (nativeGateResponse (minNativeRequired latestUpdate)
            (userNativeVersion r), db)
        else
          match checkSideEffects db o r appUuid channelData latestUpdate with
          | Except.error e => Except.error e
          | Except.ok db2 => Except.ok (availableFor latestUpdate, db2)

/-! ## `assignChannel` (UpdateService in supabaseService.ts) -/

/-- A channel self-assignment request (`ChannelAssignmentRequest`). -/
structure ChannelAssignment where
  channel : String
  deviceId : String
  appId : String
  platform : String
deriving DecidableEq, Repr

/-- `UpdateService.assignChannel` from `supabaseService.ts`: resolve the
app, look the channel up by `(app_id, name)` with `maybeSingle()` (no
row, or more than one, throws "not found"), then update the existing
`device_channels` row for `(deviceId, channelId)` — touching only
`platform`/`updated_at` — or insert a new one.  No policy flag of the
channel is consulted. -/
def assignChannel (db : Db) (a : ChannelAssignment) : Except String Db :=
  match resolveAppUuid db a.appId with
  | none => Except.error "App not found"
  | some appUuid =>
    match singleChannel db appUuid a.channel with
    | none =>
      Except.error ("Channel '" ++ a.channel ++ "' not found for app")
    | some channelData =>
      match maybeSingleDC db a.deviceId channelData.id with
      | some existing =>
        let updated := db.device_channels.map (fun row =>
          if row.id = existing.id
          then { row with platform := a.platform } else row)
        Except.ok { db with device_channels := updated }
      | none =>
        Except.ok { db with device_channels := db.device_channels ++
          [{ id := ""
             device_id := a.deviceId
             channel_id := channelData.id
             platform := a.platform }] }

/-! ## Legacy `UpdateService.getAvailableChannels` (updateService.ts) -/

/-- A row of the legacy `updates` table; only the columns read by the
embedded operation (`app_id`, `platform`, `active`, `channel`) carry
meaning, `version` is kept to make rows distinguishable. -/
structure LegacyUpdateRow where
  app_id : String
  version : String
  channel : String
  platform : String
  active : Bool
deriving DecidableEq, Repr

/-- One entry of the channel listing returned to the device. -/
structure ChannelInfo where
  id : String
  name : String
  public : Bool
  allow_self_set : Bool
deriving DecidableEq, Repr

/-- Insertion loop of JS `new Set(xs)`: skip elements already seen. -/
def dedupFirstAux {α : Type} [DecidableEq α] (seen : List α) :
    List α → List α
  | [] => []
  | x :: xs =>
    if x ∈ seen then dedupFirstAux seen xs
    else x :: dedupFirstAux (x :: seen) xs

/-- First-occurrence de-duplication, the semantics of JS
`[...new Set(xs)]`: a `Set` keeps insertion order of first
occurrences. -/
def dedupFirst {α : Type} [DecidableEq α] (l : List α) : List α :=
  dedupFirstAux [] l

/-- `UpdateService.getAvailableChannels` from `updateService.ts`: query
the `updates` table for rows matching `(app_id, platform, active=true)`
(the generic query helper applies a default `limit 100`), de-duplicate
the channel values keeping first occurrences (`[...new Set(...)]`), and
emit one entry per channel with `public: true` and
`allow_self_set: true` literal. -/
def getAvailableChannels (updates : List LegacyUpdateRow)
    (appId platform : String) : List ChannelInfo :=
  let rows := (updates.filter (fun u =>
    u.app_id = appId ∧ u.platform = platform ∧ u.active = true)).take 100
  let uniqueChannels := dedupFirst (rows.map (fun u => u.channel))
  uniqueChannels.map (fun ch =>
    { id := ch, name := ch, public := true, allow_self_set := true })


/-! ## Concrete fixtures (the spec's running scenario and variants) -/

/-- The bundle "1.2.0" on channel "production" of `com.example.app`. -/
def bundle120 : VersionRow :=
  { id := "v-120"
    version_name := "1.2.0"
    external_url := some "https://files.example/b120.zip"
    r2_path := none
    checksum := some "cafebabe"
    session_key := none
    min_update_version := none
    platform := "android"
    active := true }

/-- The production channel of the example app, pointing at `bundle120`. -/
def prodChannel : ChannelRow :=
  { id := "ch-prod"
    app_id := "app-1"
    name := "production"
    current_version_id := some "v-120"
    is_public := true
    allow_device_self_set := true }

/-- The example app row. -/
def exampleApp : AppRow := { id := "app-1", app_id := "com.example.app" }

/-- Base database: one app, one channel, one active bundle. -/
def baseDb : Db :=
  { apps := [exampleApp]
    channels := [prodChannel]
    app_versions := [bundle120]
    device_channels := []
    update_logs := [] }

/-- Base device-check request: device on "1.1.0" asking channel
"production" explicitly, no device id. -/
def baseReq : UpdateRequest :=
  { appId := "com.example.app"
    platform := "android"
    version_name := some "1.1.0"
    channel := some "production"
    defaultChannel := none
    default_channel := none
    deviceId := none
    versionCode := some "54"
    versionBuild := none }

/-! ## Specification-side models used to compare against the code -/

/-- The decimal value of a digit string. -/
def decDigitsVal (cs : List Char) : Nat :=
  cs.foldl (fun a c => a * 10 + (c.toNat - '0'.toNat)) 0

/-- The segment model described by the claim for C8: each segment is
"parsed as a non-negative integer, missing or non-numeric segments
treated as 0" — only all-digit non-empty segments count. -/
def specSegments (v : String) : List Int :=
  (splitDotChars v.toList).map (fun cs =>
    if cs ≠ [] ∧ cs.all Char.isDigit then (decDigitsVal cs : Int) else 0)

/-- The comparison described by the claim for C8: the claim's segment
model, zero-padded to the longer tuple, compared lexicographically. -/
def specCompareVersions (a b : String) : Int :=
  let p1 := specSegments a
  let p2 := specSegments b
  let m := max p1.length p2.length
  cmpSegs (padZeros p1 m) (padZeros p2 m)

/-- The update decision as computed from the catalog and the comparator
alone — the portion of `checkForUpdate` before and independent of the
check-in side effects. -/
def pureDecision (db : Db) (r : UpdateRequest) : UpdateResponse :=
  match resolveAppUuid db r.appId with
  | none => { message := some "App not found" }
  | some appUuid =>
    match singleChannel db appUuid (channelToUse r) with
    | none => {}
    | some channelData =>
      match bundleOf db channelData with
      | none => {}
      | some latestUpdate =>
        if r.platform ≠ "" ∧ latestUpdate.platform ≠ r.platform then {}
        else if ¬ (compareVersions latestUpdate.version_name
            (normCurrentVersion r) > 0) then
          { message := some "No update available" }
        else if minNativeRequired latestUpdate > 0 ∧
            userNativeVersion r < minNativeRequired latestUpdate then
          nativeGateResponse (minNativeRequired latestUpdate)
            (userNativeVersion r)
        else availableFor latestUpdate

/-- Number of `device_channels` rows for one `(deviceId, channelId)`
pair. -/
def pairCount (l : List DeviceChannelRow) (dev ch : String) : Nat :=
  l.countP (fun x => x.device_id = dev ∧ x.channel_id = ch)

/-- At most one `device_channels` row per `(deviceId, channelId)` pair. -/
def atMostOnePerPair (l : List DeviceChannelRow) : Prop :=
  ∀ dev ch, pairCount l dev ch ≤ 1

/-- Number of `device_channels` rows of one device pointing at any
channel of the given app — the claim's `(app, deviceId)` granularity. -/
def appDeviceCount (db : Db) (appUuid dev : String) : Nat :=
  db.device_channels.countP (fun x => x.device_id = dev ∧
    (db.channels.filter (fun c => c.id = x.channel_id ∧
      c.app_id = appUuid)) ≠ [])

/-! ## Further fixtures for the individual claims -/

/-- Bundle with a negative parsed `min_update_version` ("-5"). -/
def bundleNegMin : VersionRow :=
  { bundle120 with min_update_version := some "-5" }

/-- Database whose production bundle requires native version "-5". -/
def dbNegMin : Db := { baseDb with app_versions := [bundleNegMin] }

/-- Request reporting native build "-6" (parsed by JS `parseInt`). -/
def reqNegNative : UpdateRequest := { baseReq with versionCode := some "-6" }

/-- A second channel "beta" of the same app, self-assignment disabled,
with its own active bundle. -/
def bundleBeta : VersionRow :=
  { bundle120 with id := "v-beta", version_name := "2.0.0" }

def betaChannel : ChannelRow :=
  { id := "ch-beta"
    app_id := "app-1"
    name := "beta"
    current_version_id := some "v-beta"
    is_public := false
    allow_device_self_set := false }

/-- Stored device-channel override: device `dev-1` is on "beta". -/
def betaOverrideRow : DeviceChannelRow :=
  { id := "dc-1", device_id := "dev-1", channel_id := "ch-beta"
    platform := "android" }

/-- Database with channels "production" and "beta", and `dev-1` holding
a stored override to "beta". -/
def dbOverride : Db :=
  { baseDb with
    channels := [prodChannel, betaChannel]
    app_versions := [bundle120, bundleBeta]
    device_channels := [betaOverrideRow] }

/-- Check request of `dev-1`: no explicit channel, `defaultChannel`
hint "production". -/
def reqOverride : UpdateRequest :=
  { baseReq with
    channel := none
    defaultChannel := some "production"
    version_name := some "1.0.0"
    deviceId := some "dev-1" }

/-- Database for the self-assignment claim: both channels, no
device-channel rows yet. -/
def dbAssign : Db :=
  { baseDb with
    channels := [prodChannel, betaChannel]
    app_versions := [bundle120, bundleBeta] }

/-- `dev-1` asks to join "beta", whose `allow_device_self_set` is
`false`. -/
def assignBetaReq : ChannelAssignment :=
  { channel := "beta", deviceId := "dev-1", appId := "com.example.app"
    platform := "android" }

/-- `dev-1`, already on "beta", asks to join "production". -/
def assignProdReq : ChannelAssignment :=
  { channel := "production", deviceId := "dev-1"
    appId := "com.example.app", platform := "android" }

/-- Database whose production bundle is inactive (`active = false`). -/
def dbInactive : Db :=
  { baseDb with app_versions := [{ bundle120 with active := false }] }

/-- Bundle gated on native version 50. -/
def bundleGate50 : VersionRow :=
  { bundle120 with min_update_version := some "50" }

/-- Database for the native-gating scenario. -/
def dbGate : Db := { baseDb with app_versions := [bundleGate50] }

/-- Device reports native build 40 against the gated bundle. -/
def reqBuild40 : UpdateRequest := { baseReq with versionCode := some "40" }

/-- Check request with a device id present (side effects run). -/
def reqWithDevice : UpdateRequest := { baseReq with deviceId := some "dev-9" }

/-- The single-row `updates` table used to witness C10. -/
def exUpdates : List LegacyUpdateRow :=
  [{ app_id := "com.example.app", version := "1.0.0", channel := "prod",
     platform := "android", active := true }]

/-- The channel entry expected from `exUpdates`. -/
def prodInfo : ChannelInfo :=
  { id := "prod", name := "prod", public := true, allow_self_set := true }

/-- The database state after the successful check-in of `dev-9`. -/
def dbAfterCheck : Db :=
  { baseDb with
    device_channels := [{ id := "", device_id := "dev-9",
                          channel_id := "ch-prod",
                          platform := "android" }]
    update_logs := [checkLogRow reqWithDevice "app-1" bundle120] }

/-- The database state after `dev-1` (already on "beta") is assigned to
"production": a second row for the device. -/
def dbAfterReassign : Db :=
  { dbOverride with device_channels := [betaOverrideRow,
      { id := "", device_id := "dev-1", channel_id := "ch-prod",
        platform := "android" }] }

/-! ## Concrete evaluations of the embedded operations -/

example : compareVersions "1.2.0" "1.1.0" = 1 := by decide
example : compareVersions "1.2.0" "1.2.0" = 0 := by decide
example : compareVersions "1.0.0" "0.0.0" = 1 := by decide
example : compareVersions "1.2" "1.2.0.1" = -1 := by decide
example : compareVersions "-1" "0.0" = -1 := by decide
example : compareVersions "0x10" "16" = 0 := by decide

example : dedupFirst ["b", "a", "b", "c"] = ["b", "a", "c"] := by decide

example :
    checkForUpdate baseDb honest baseReq =
      Except.ok (availableFor bundle120, baseDb) := by decide

example :
    checkForUpdate baseDb honest { baseReq with version_name := some "1.2.0" } =
      Except.ok ({ message := some "No update available" }, baseDb) := by decide

example :
    checkForUpdate baseDb honest { baseReq with version_name := some "builtin" } =
      Except.ok (availableFor bundle120, baseDb) := by decide

example :
    checkForUpdate dbNegMin honest reqNegNative =
      Except.ok (availableFor bundleNegMin, dbNegMin) := by decide

example :
    (checkForUpdate dbOverride honest reqOverride).map Prod.fst =
      Except.ok (availableFor bundle120) := by decide

example :
    checkForUpdate baseDb { logInsertFails := true, dcInsertFails := false }
      reqWithDevice = Except.error "Insert failed" := by decide

example :
    (checkForUpdate dbInactive honest baseReq).map Prod.fst =
      Except.ok (availableFor { bundle120 with active := false }) := by decide

example :
    checkForUpdate dbGate honest reqBuild40 =
      Except.ok (nativeGateResponse 50 40, dbGate) := by decide

example :
    (assignChannel dbAssign assignBetaReq).map (fun d => d.device_channels) =
      Except.ok [{ id := "", device_id := "dev-1", channel_id := "ch-beta",
                   platform := "android" }] := by decide

example :
    (assignChannel dbOverride assignProdReq).map
        (fun d => (appDeviceCount d "app-1" "dev-1")) =
      Except.ok 2 := by decide

/-! ### Order-theoretic facts about the comparison loop -/

theorem cmpSegs_refl : ∀ xs : List Int, cmpSegs xs xs = 0
  | [] => rfl
  | x :: xs => by simp [cmpSegs, lt_irrefl, cmpSegs_refl xs]

theorem cmpSegs_neg (xs : List Int) : ∀ ys, cmpSegs xs ys = -cmpSegs ys xs := by
  induction xs with
  | nil => intro ys; cases ys <;> rfl
  | cons x xs ih =>
    intro ys
    cases ys with
    | nil => rfl
    | cons y ys =>
      simp only [cmpSegs]
      split_ifs <;> first | omega | rw [ih ys]

theorem cmpSegs_vals (xs : List Int) : ∀ ys,
    cmpSegs xs ys = -1 ∨ cmpSegs xs ys = 0 ∨ cmpSegs xs ys = 1 := by
  induction xs with
  | nil => intro ys; cases ys <;> simp [cmpSegs]
  | cons x xs ih =>
    intro ys
    cases ys with
    | nil => simp [cmpSegs]
    | cons y ys =>
      simp only [cmpSegs]
      split_ifs <;> simp [ih ys]

theorem cmpSegs_eq_zero_iff : ∀ (xs ys : List Int), xs.length = ys.length →
    (cmpSegs xs ys = 0 ↔ xs = ys)
  | [], [], _ => by simp [cmpSegs]
  | [], _ :: _, h => by simp at h
  | _ :: _, [], h => by simp at h
  | x :: xs, y :: ys, h => by
    have htl : xs.length = ys.length := by simpa using h
    simp only [cmpSegs, List.cons.injEq]
    split_ifs with h1 h2
    · exact iff_of_false (by omega) (by rintro ⟨h3, -⟩; omega)
    · exact iff_of_false not_false (by rintro ⟨h3, -⟩; omega)
    · have hxy : x = y := by omega
      rw [cmpSegs_eq_zero_iff xs ys htl]
      simp [hxy]

theorem cmpSegs_trans : ∀ (xs ys zs : List Int), xs.length = ys.length →
    ys.length = zs.length → cmpSegs xs ys = 1 → cmpSegs ys zs = 1 →
    cmpSegs xs zs = 1
  | [], ys, zs, h1, _, hab, _ => by
    cases ys with
    | nil => simp [cmpSegs] at hab
    | cons _ _ => simp at h1
  | _ :: _, [], _, h1, _, _, _ => by simp at h1
  | _ :: _, _ :: _, [], _, h2, _, _ => by simp at h2
  | x :: xs, y :: ys, z :: zs, h1, h2, hab, hbc => by
    have htl1 : xs.length = ys.length := by simpa using h1
    have htl2 : ys.length = zs.length := by simpa using h2
    simp only [cmpSegs] at hab hbc ⊢
    split_ifs at hab hbc ⊢ <;>
      first
      | omega
      | exact cmpSegs_trans xs ys zs htl1 htl2 hab hbc

theorem cmpSegs_one_iff_lex : ∀ (xs ys : List Int), xs.length = ys.length →
    (cmpSegs xs ys = 1 ↔ List.Lex (· < ·) ys xs)
  | [], [], _ => by
    simp only [cmpSegs]
    exact iff_of_false (by omega) (List.Lex.not_nil_right _ _)
  | [], _ :: _, h => by simp at h
  | _ :: _, [], h => by simp at h
  | x :: xs, y :: ys, h => by
    have htl : xs.length = ys.length := by simpa using h
    simp only [cmpSegs]
    split_ifs with h1 h2
    · exact iff_of_true (by omega) (List.Lex.rel h1)
    · refine iff_of_false (by first | omega | exact not_false)
        (fun hlex => ?_)
      cases hlex with
      | cons hl => omega
      | rel hr => omega
    · have hxy : x = y := by omega
      subst hxy
      rw [cmpSegs_one_iff_lex xs ys htl]
      constructor
      · exact fun hl => List.Lex.cons hl
      · intro hlex
        cases hlex with
        | cons hl => exact hl
        | rel hr => exact absurd hr (lt_irrefl x)

/-- Padding both lists by the same number of trailing zeros does not
change the comparison of two equal-length lists. -/
theorem cmpSegs_append_replicate : ∀ (xs ys : List Int) (k : Nat),
    xs.length = ys.length →
    cmpSegs (xs ++ List.replicate k 0) (ys ++ List.replicate k 0) =
      cmpSegs xs ys
  | [], [], k, _ => by simp [cmpSegs_refl, cmpSegs]
  | [], _ :: _, _, h => by simp at h
  | _ :: _, [], _, h => by simp at h
  | x :: xs, y :: ys, k, h => by
    have htl : xs.length = ys.length := by simpa using h
    simp only [List.cons_append, cmpSegs]
    split_ifs
    · rfl
    · rfl
    · exact cmpSegs_append_replicate xs ys k htl

theorem padZeros_length {l : List Int} {n : Nat} (h : l.length ≤ n) :
    (padZeros l n).length = n := by
  simp only [padZeros, List.length_append, List.length_replicate]
  omega

theorem padZeros_eq_append {l : List Int} {m L : Nat} (h1 : l.length ≤ m)
    (h2 : m ≤ L) :
    padZeros l L = padZeros l m ++ List.replicate (L - m) 0 := by
  simp only [padZeros, List.append_assoc, ← List.replicate_add]
  congr 2
  omega

/-- `compareVersions` can be computed with any common padding length at
least the maximum of the two segment counts. -/
theorem compareVersions_eq_cmpAt (a b : String) (L : Nat)
    (hL : max (versionSegs a).length (versionSegs b).length ≤ L) :
    cmpSegs (padZeros (versionSegs a) L) (padZeros (versionSegs b) L) =
      compareVersions a b := by
  have ha : (versionSegs a).length ≤ max (versionSegs a).length
      (versionSegs b).length := le_max_left _ _
  have hb : (versionSegs b).length ≤ max (versionSegs a).length
      (versionSegs b).length := le_max_right _ _
  rw [padZeros_eq_append ha hL, padZeros_eq_append hb hL,
    cmpSegs_append_replicate _ _ _
      (by rw [padZeros_length ha, padZeros_length hb])]
  rfl

theorem compareVersions_refl (v : String) : compareVersions v v = 0 := by
  simp only [compareVersions]
  exact cmpSegs_refl _

theorem compareVersions_neg (a b : String) :
    compareVersions a b = -compareVersions b a := by
  simp only [compareVersions]
  rw [show max (versionSegs a).length (versionSegs b).length =
    max (versionSegs b).length (versionSegs a).length from Nat.max_comm _ _]
  exact cmpSegs_neg _ _

theorem compareVersions_trans (a b c : String)
    (hab : compareVersions a b = 1) (hbc : compareVersions b c = 1) :
    compareVersions a c = 1 := by
  have hA := (versionSegs a).length
  rw [← compareVersions_eq_cmpAt a b
    (max (max (versionSegs a).length (versionSegs b).length)
      (versionSegs c).length) (by omega)] at hab
  rw [← compareVersions_eq_cmpAt b c
    (max (max (versionSegs a).length (versionSegs b).length)
      (versionSegs c).length) (by omega)] at hbc
  rw [← compareVersions_eq_cmpAt a c
    (max (max (versionSegs a).length (versionSegs b).length)
      (versionSegs c).length) (by omega)]
  exact cmpSegs_trans _ _ _
    (by rw [padZeros_length (by omega), padZeros_length (by omega)])
    (by rw [padZeros_length (by omega), padZeros_length (by omega)])
    hab hbc

theorem compareVersions_vals (a b : String) :
    compareVersions a b = -1 ∨ compareVersions a b = 0 ∨
      compareVersions a b = 1 := by
  simp only [compareVersions]
  exact cmpSegs_vals _ _

theorem compareVersions_eq_zero_iff (a b : String) :
    compareVersions a b = 0 ↔
      padZeros (versionSegs a)
          (max (versionSegs a).length (versionSegs b).length) =
        padZeros (versionSegs b)
          (max (versionSegs a).length (versionSegs b).length) := by
  simp only [compareVersions]
  exact cmpSegs_eq_zero_iff _ _
    (by rw [padZeros_length (le_max_left _ _),
      padZeros_length (le_max_right _ _)])

theorem compareVersions_one_iff_lex (a b : String) :
    compareVersions a b = 1 ↔
      List.Lex (· < ·)
        (padZeros (versionSegs b)
          (max (versionSegs a).length (versionSegs b).length))
        (padZeros (versionSegs a)
          (max (versionSegs a).length (versionSegs b).length)) := by
  simp only [compareVersions]
  exact cmpSegs_one_iff_lex _ _
    (by rw [padZeros_length (le_max_left _ _),
      padZeros_length (le_max_right _ _)])

/-! ## Branch lemmas for `checkForUpdate` -/

/-- Under the honest oracle the register step never throws. -/
theorem registerDeviceChannel_honest_ok (db1 : Db) (dev chId plat : String) :
    ∃ db2, registerDeviceChannel db1 honest dev chId plat = Except.ok db2 := by
  unfold registerDeviceChannel
  cases hms : maybeSingleDC db1 dev chId with
  | some x => exact ⟨db1, rfl⟩
  | none =>
    rw [if_neg (by decide)]
    exact ⟨_, rfl⟩

/-- Under the honest oracle the side-effect block never throws. -/
theorem checkSideEffects_honest_ok (db : Db) (r : UpdateRequest)
    (u : String) (c : ChannelRow) (b : VersionRow) :
    ∃ db2, checkSideEffects db honest r u c b = Except.ok db2 := by
  unfold checkSideEffects
  by_cases hdev : jsTruthy r.deviceId = true
  · rw [if_pos hdev, if_neg (by decide)]
    exact registerDeviceChannel_honest_ok _ _ _ _
  · rw [if_neg hdev]
    exact ⟨db, rfl⟩

/-- Unknown app: the response is the "App not found" message and the
database is untouched, for any oracle. -/
theorem checkForUpdate_app_not_found (db : Db) (o : WriteOracle)
    (r : UpdateRequest) (happ : resolveAppUuid db r.appId = none) :
    checkForUpdate db o r = Except.ok ({ message := some "App not found" }, db) := by
  unfold checkForUpdate
  rw [happ]

/-- Unknown or ambiguous channel: empty response, database untouched. -/
theorem checkForUpdate_no_channel (db : Db) (o : WriteOracle)
    (r : UpdateRequest) (appUuid : String)
    (happ : resolveAppUuid db r.appId = some appUuid)
    (hch : singleChannel db appUuid (channelToUse r) = none) :
    checkForUpdate db o r = Except.ok ({}, db) := by
  unfold checkForUpdate
  simp only [happ, hch]

/-- Channel with no (or dangling) active-bundle pointer: empty
response, database untouched. -/
theorem checkForUpdate_no_bundle (db : Db) (o : WriteOracle)
    (r : UpdateRequest) (appUuid : String) (c : ChannelRow)
    (happ : resolveAppUuid db r.appId = some appUuid)
    (hch : singleChannel db appUuid (channelToUse r) = some c)
    (hb : bundleOf db c = none) :
    checkForUpdate db o r = Except.ok ({}, db) := by
  unfold checkForUpdate
  simp only [happ, hch, hb]

/-- Platform mismatch (only checked when the request carries a
non-empty platform): empty response, database untouched. -/
theorem checkForUpdate_platform_mismatch (db : Db) (o : WriteOracle)
    (r : UpdateRequest) (appUuid : String) (c : ChannelRow) (b : VersionRow)
    (happ : resolveAppUuid db r.appId = some appUuid)
    (hch : singleChannel db appUuid (channelToUse r) = some c)
    (hb : bundleOf db c = some b)
    (hplat : r.platform ≠ "" ∧ b.platform ≠ r.platform) :
    checkForUpdate db o r = Except.ok ({}, db) := by
  unfold checkForUpdate
  simp only [happ, hch, hb]
  rw [if_pos hplat]

/-- Any element produced by the `new Set` insertion loop comes from the
input list. -/
theorem mem_of_mem_dedupFirstAux {α : Type} [DecidableEq α] {a : α} :
    ∀ (seen l : List α), a ∈ dedupFirstAux seen l → a ∈ l
  | seen, [], h => by simp [dedupFirstAux] at h
  | seen, x :: xs, h => by
    unfold dedupFirstAux at h
    split at h
    · exact List.mem_cons_of_mem _ (mem_of_mem_dedupFirstAux seen xs h)
    · rcases List.mem_cons.mp h with h1 | h1
      · exact h1 ▸ List.mem_cons_self _ _
      · exact List.mem_cons_of_mem _ (mem_of_mem_dedupFirstAux _ xs h1)

/-- After app, channel, bundle and platform resolve, `checkForUpdate`
reduces to the version comparison, the native gate, and the side-effect
block. -/
theorem checkForUpdate_resolved (db : Db) (o : WriteOracle)
    (r : UpdateRequest) (appUuid : String) (c : ChannelRow) (b : VersionRow)
    (happ : resolveAppUuid db r.appId = some appUuid)
    (hch : singleChannel db appUuid (channelToUse r) = some c)
    (hb : bundleOf db c = some b)
    (hplat : ¬(r.platform ≠ "" ∧ b.platform ≠ r.platform)) :
    checkForUpdate db o r =
      if ¬(compareVersions b.version_name (normCurrentVersion r) > 0) then
        Except.ok ({ message := some "No update available" }, db)
      else if minNativeRequired b > 0 ∧
          userNativeVersion r < minNativeRequired b then
        Except.ok (nativeGateResponse (minNativeRequired b)
          (userNativeVersion r), db)
      else
        match checkSideEffects db o r appUuid c b with
        | Except.error e => Except.error e
        | Except.ok db2 => Except.ok (availableFor b, db2) := by
  unfold checkForUpdate
  simp only [happ, hch, hb]
  rw [if_neg hplat]

/-! ## Claim C8: the version comparator -/

/-- C8 counterexample: `compareVersions` does not agree with the
claim's segment model ("parse each segment as a non-negative integer,
non-numeric segments treated as 0").  The segment "-1" is parsed by the
code's `parseInt(p) || 0` to the negative integer -1, while the claim's
model treats it as 0, so on the input pair ("-1", "0.0") the code
returns -1 where the claim's comparison returns 0. -/
theorem C8_counterexample :
    compareVersions "-1" "0.0" = -1 ∧
      specCompareVersions "-1" "0.0" = 0 := by decide

/-- C8 (amended): `compareVersions a b` equals the lexicographic
comparison of the two integer-segment tuples obtained by splitting on
`.` and parsing each segment with JS `parseInt` semantics (optional
sign and hex prefix, longest digit prefix, `NaN` treated as 0), with
the shorter tuple zero-padded: result 1 is exactly Mathlib's strict
lexicographic order on the padded tuples, 0 exactly their equality;
moreover `compareVersions v v = 0` for every `v`, and the comparator is
antisymmetric, transitive, and total on the segment model. -/
theorem C8_compareVersions_lex_total_order :
    (∀ a b : String, compareVersions a b = 1 ↔
      List.Lex (· < ·)
        (padZeros (versionSegs b)
          (max (versionSegs a).length (versionSegs b).length))
        (padZeros (versionSegs a)
          (max (versionSegs a).length (versionSegs b).length))) ∧
    (∀ a b : String, compareVersions a b = 0 ↔
      padZeros (versionSegs a)
          (max (versionSegs a).length (versionSegs b).length) =
        padZeros (versionSegs b)
          (max (versionSegs a).length (versionSegs b).length)) ∧
    (∀ v : String, compareVersions v v = 0) ∧
    (∀ a b : String, compareVersions a b = -compareVersions b a) ∧
    (∀ a b c : String, compareVersions a b = 1 → compareVersions b c = 1 →
      compareVersions a c = 1) ∧
    (∀ a b : String, compareVersions a b = -1 ∨ compareVersions a b = 0 ∨
      compareVersions a b = 1) :=
  ⟨compareVersions_one_iff_lex, compareVersions_eq_zero_iff,
    compareVersions_refl, compareVersions_neg, compareVersions_trans,
    compareVersions_vals⟩

/-- Witness for C8: the transitivity component applied at the concrete
versions "2.0" > "1.5" > "1.0". -/
theorem C8_compareVersions_lex_total_order_witness :
    compareVersions "2.0" "1.0" = 1 :=
  C8_compareVersions_lex_total_order.2.2.2.2.1 "2.0" "1.5" "1.0"
    (by decide) (by decide)

/-! ## Claim C6: the "builtin" sentinel -/

/-- C6: a device-check reporting the sentinel version "builtin" has its
reported version normalized to "0.0.0" before comparison, so a resolved
bundle whose version compares greater than "0.0.0" is judged newer and
(the native gate passing) offered as the update. -/
theorem C6_builtin_sentinel (db : Db) (r : UpdateRequest) (appUuid : String)
    (c : ChannelRow) (b : VersionRow)
    (hbuiltin : r.version_name = some "builtin")
    (happ : resolveAppUuid db r.appId = some appUuid)
    (hch : singleChannel db appUuid (channelToUse r) = some c)
    (hb : bundleOf db c = some b)
    (hplat : ¬(r.platform ≠ "" ∧ b.platform ≠ r.platform))
    (hnew : compareVersions b.version_name "0.0.0" > 0)
    (hgate : ¬(minNativeRequired b > 0 ∧
      userNativeVersion r < minNativeRequired b)) :
    normCurrentVersion r = "0.0.0" ∧
      ∃ db2, checkForUpdate db honest r =
        Except.ok (availableFor b, db2) := by
  have hnorm : normCurrentVersion r = "0.0.0" := by
    simp [normCurrentVersion, hbuiltin]
  refine ⟨hnorm, ?_⟩
  rw [checkForUpdate_resolved db honest r appUuid c b happ hch hb hplat,
    hnorm, if_neg (not_not_intro hnew), if_neg hgate]
  obtain ⟨db2, hse⟩ := checkSideEffects_honest_ok db r appUuid c b
  rw [hse]
  exact ⟨db2, rfl⟩

/-- Witness for C6: the spec scenario — device reports "builtin"
against active bundle "1.2.0" and is offered the update. -/
theorem C6_builtin_sentinel_witness :
    normCurrentVersion { baseReq with version_name := some "builtin" } =
        "0.0.0" ∧
      ∃ db2, checkForUpdate baseDb honest
          { baseReq with version_name := some "builtin" } =
        Except.ok (availableFor bundle120, db2) :=
  C6_builtin_sentinel baseDb { baseReq with version_name := some "builtin" }
    "app-1" prodChannel bundle120 (by decide) (by decide) (by decide)
    (by decide) (by decide) (by decide) (by decide)

/-! ## Claim C7: the native-gating outcome -/

/-- C7: when the candidate bundle is strictly newer but declares a
positive minimum native version above the device's reported build, the
response is the distinct gating outcome: marker message
"native_update_required", the required native version carried in the
error text, and no version, URL, checksum or session key of the
withheld bundle; the database is untouched for any oracle. -/
theorem C7_native_gate (db : Db) (o : WriteOracle) (r : UpdateRequest)
    (appUuid : String) (c : ChannelRow) (b : VersionRow)
    (happ : resolveAppUuid db r.appId = some appUuid)
    (hch : singleChannel db appUuid (channelToUse r) = some c)
    (hb : bundleOf db c = some b)
    (hplat : ¬(r.platform ≠ "" ∧ b.platform ≠ r.platform))
    (hnew : compareVersions b.version_name (normCurrentVersion r) > 0)
    (hgate : minNativeRequired b > 0 ∧
      userNativeVersion r < minNativeRequired b) :
    checkForUpdate db o r = Except.ok
        (nativeGateResponse (minNativeRequired b) (userNativeVersion r),
          db) ∧
      (nativeGateResponse (minNativeRequired b)
        (userNativeVersion r)).message = some "native_update_required" ∧
      (nativeGateResponse (minNativeRequired b)
        (userNativeVersion r)).error = some ("Native version " ++
          toString (minNativeRequired b) ++ " required. You have " ++
          toString (userNativeVersion r) ++ ".") ∧
      (nativeGateResponse (minNativeRequired b)
        (userNativeVersion r)).version_name = none ∧
      (nativeGateResponse (minNativeRequired b)
        (userNativeVersion r)).url = none ∧
      (nativeGateResponse (minNativeRequired b)
        (userNativeVersion r)).checksum = none ∧
      (nativeGateResponse (minNativeRequired b)
        (userNativeVersion r)).sessionKey = none := by
  rw [checkForUpdate_resolved db o r appUuid c b happ hch hb hplat,
    if_neg (not_not_intro hnew), if_pos hgate]
  exact ⟨rfl, rfl, rfl, rfl, rfl, rfl, rfl⟩

/-- Witness for C7: the spec scenario — bundle with
`min_update_version = "50"`, device reporting build 40, any oracle
(both inserts failing): gating response, no URL. -/
theorem C7_native_gate_witness :
    checkForUpdate dbGate { logInsertFails := true, dcInsertFails := true }
        reqBuild40 = Except.ok
        (nativeGateResponse (minNativeRequired bundleGate50)
          (userNativeVersion reqBuild40), dbGate) ∧
      (nativeGateResponse (minNativeRequired bundleGate50)
        (userNativeVersion reqBuild40)).message =
        some "native_update_required" ∧
      (nativeGateResponse (minNativeRequired bundleGate50)
        (userNativeVersion reqBuild40)).error = some ("Native version " ++
          toString (minNativeRequired bundleGate50) ++
          " required. You have " ++
          toString (userNativeVersion reqBuild40) ++ ".") ∧
      (nativeGateResponse (minNativeRequired bundleGate50)
        (userNativeVersion reqBuild40)).version_name = none ∧
      (nativeGateResponse (minNativeRequired bundleGate50)
        (userNativeVersion reqBuild40)).url = none ∧
      (nativeGateResponse (minNativeRequired bundleGate50)
        (userNativeVersion reqBuild40)).checksum = none ∧
      (nativeGateResponse (minNativeRequired bundleGate50)
        (userNativeVersion reqBuild40)).sessionKey = none :=
  C7_native_gate dbGate { logInsertFails := true, dcInsertFails := true }
    reqBuild40 "app-1" prodChannel bundleGate50 (by decide) (by decide)
    (by decide) (by decide) (by decide) (by decide)

/-! ## Claim C1: the update-available condition -/

/-- C1 counterexample: the claim's gate "(minNativeVersion is 0 OR
nativeBuild ≥ minNativeVersion)" fails against the code when the parsed
minimum is negative — with `min_update_version = "-5"` and reported
build "-6" the code still returns the update-available result, because
its guard is `minNativeRequired > 0`, not `≠ 0`. -/
theorem C1_counterexample :
    checkForUpdate dbNegMin honest reqNegNative =
        Except.ok (availableFor bundleNegMin, dbNegMin) ∧
      compareVersions bundleNegMin.version_name
        (normCurrentVersion reqNegNative) > 0 ∧
      minNativeRequired bundleNegMin ≠ 0 ∧
      userNativeVersion reqNegNative < minNativeRequired bundleNegMin ∧
      (availableFor bundleNegMin).version_name =
        some bundleNegMin.version_name := by decide

/-- C1 (amended): with app, channel, bundle and platform resolved and
all side-effect writes succeeding, `checkForUpdate` returns the
update-available result referencing the bundle (version, url, checksum,
optional session key) iff the comparator judges the bundle's version
strictly greater than the sentinel-normalized reported version AND (the
bundle's parsed minNativeVersion is ≤ 0 OR the reported native build is
≥ it); in every other case the response carries no version and no
download URL. -/
theorem C1_update_available_iff (db : Db) (r : UpdateRequest)
    (appUuid : String) (c : ChannelRow) (b : VersionRow)
    (happ : resolveAppUuid db r.appId = some appUuid)
    (hch : singleChannel db appUuid (channelToUse r) = some c)
    (hb : bundleOf db c = some b)
    (hplat : ¬(r.platform ≠ "" ∧ b.platform ≠ r.platform)) :
    ∃ resp db2, checkForUpdate db honest r = Except.ok (resp, db2) ∧
      ((resp = availableFor b) ↔
        (compareVersions b.version_name (normCurrentVersion r) > 0 ∧
          (minNativeRequired b ≤ 0 ∨
            userNativeVersion r ≥ minNativeRequired b))) ∧
      (¬(compareVersions b.version_name (normCurrentVersion r) > 0 ∧
          (minNativeRequired b ≤ 0 ∨
            userNativeVersion r ≥ minNativeRequired b)) →
        resp.version_name = none ∧ resp.url = none) := by
  rw [checkForUpdate_resolved db honest r appUuid c b happ hch hb hplat]
  by_cases hnew : compareVersions b.version_name (normCurrentVersion r) > 0
  · by_cases hgate : minNativeRequired b > 0 ∧
        userNativeVersion r < minNativeRequired b
    · rw [if_neg (not_not_intro hnew), if_pos hgate]
      refine ⟨_, db, rfl, ?_, ?_⟩
      · constructor
        · intro h
          exfalso
          have hm := congrArg UpdateResponse.message h
          simp [nativeGateResponse, availableFor] at hm
        · rintro ⟨-, hc⟩
          exfalso
          rcases hc with hc | hc <;> omega
      · intro _
        exact ⟨rfl, rfl⟩
    · rw [if_neg (not_not_intro hnew), if_neg hgate]
      obtain ⟨db2, hse⟩ := checkSideEffects_honest_ok db r appUuid c b
      rw [hse]
      refine ⟨availableFor b, db2, rfl, ?_, ?_⟩
      · exact iff_of_true rfl ⟨hnew, by omega⟩
      · intro hcon
        exact absurd ⟨hnew, by omega⟩ hcon
  · rw [if_pos hnew]
    refine ⟨_, db, rfl, ?_, ?_⟩
    · constructor
      · intro h
        exfalso
        have hm := congrArg UpdateResponse.message h
        simp [availableFor] at hm
      · rintro ⟨hn, -⟩
        exact absurd hn hnew
    · intro _
      exact ⟨rfl, rfl⟩

/-- Witness for C1: the spec scenario — device on "1.1.0", active
bundle "1.2.0" with no native minimum — satisfies the amended iff. -/
theorem C1_update_available_iff_witness :
    ∃ resp db2, checkForUpdate baseDb honest baseReq =
        Except.ok (resp, db2) ∧
      ((resp = availableFor bundle120) ↔
        (compareVersions bundle120.version_name
            (normCurrentVersion baseReq) > 0 ∧
          (minNativeRequired bundle120 ≤ 0 ∨
            userNativeVersion baseReq ≥ minNativeRequired bundle120))) ∧
      (¬(compareVersions bundle120.version_name
            (normCurrentVersion baseReq) > 0 ∧
          (minNativeRequired bundle120 ≤ 0 ∨
            userNativeVersion baseReq ≥ minNativeRequired bundle120)) →
        resp.version_name = none ∧ resp.url = none) :=
  C1_update_available_iff baseDb baseReq "app-1" prodChannel bundle120
    (by decide) (by decide) (by decide) (by decide)

/-! ## Claim C5: the active-bundle lookup -/

/-- C5 counterexample: the bundle's `active` flag is never consulted —
with the production bundle's `active` set to `false` the code still
serves it (with a download URL) instead of yielding the no-update
outcome. -/
theorem C5_counterexample :
    (checkForUpdate dbInactive honest baseReq).map Prod.fst =
        Except.ok (availableFor { bundle120 with active := false }) ∧
      ({ bundle120 with active := false } : VersionRow).active = false ∧
      (availableFor { bundle120 with active := false }).url ≠ none ∧
      bundleOf dbInactive prodChannel =
        some { bundle120 with active := false } := by decide

/-- C5 (amended): the channel's current bundle is withheld only on
platform mismatch (checked only when the request carries a non-empty
platform); the `active` flag is not consulted.  Unknown or ambiguous
channel, missing or dangling active-bundle pointer, and platform
mismatch all yield the empty no-update response — never an error — for
any oracle. -/
theorem C5_lookup_degrades (db : Db) (o : WriteOracle) (r : UpdateRequest)
    (appUuid : String)
    (happ : resolveAppUuid db r.appId = some appUuid) :
    (singleChannel db appUuid (channelToUse r) = none →
      checkForUpdate db o r = Except.ok ({}, db)) ∧
    (∀ c, singleChannel db appUuid (channelToUse r) = some c →
      bundleOf db c = none →
      checkForUpdate db o r = Except.ok ({}, db)) ∧
    (∀ c b, singleChannel db appUuid (channelToUse r) = some c →
      bundleOf db c = some b →
      r.platform ≠ "" ∧ b.platform ≠ r.platform →
      checkForUpdate db o r = Except.ok ({}, db)) :=
  ⟨fun hch => checkForUpdate_no_channel db o r appUuid happ hch,
    fun c hch hb => checkForUpdate_no_bundle db o r appUuid c happ hch hb,
    fun c b hch hb hplat =>
      checkForUpdate_platform_mismatch db o r appUuid c b happ hch hb hplat⟩

/-- Witness for C5: requesting the unknown channel "nightly" on the
base database yields the empty no-update response. -/
theorem C5_lookup_degrades_witness :
    checkForUpdate baseDb honest { baseReq with channel := some "nightly" } =
      Except.ok ({}, baseDb) :=
  (C5_lookup_degrades baseDb honest
      { baseReq with channel := some "nightly" } "app-1" (by decide)).1
    (by decide)

/-! ## Claim C3: self-assignment policy -/

/-- C3 counterexample: channel "beta" has `allow_device_self_set =
false`, yet `assignChannel` accepts the self-assignment and inserts the
`device_channels` row — the stored assignment is mutated, not
rejected. -/
theorem C3_counterexample :
    betaChannel.allow_device_self_set = false ∧
      dbAssign.device_channels = [] ∧
      (assignChannel dbAssign assignBetaReq).map
          (fun d => d.device_channels) =
        Except.ok [{ id := "", device_id := "dev-1",
                     channel_id := "ch-beta",
                     platform := "android" }] := by decide

/-- C3 (amended): `assignChannel` validates only that the app and the
named channel exist; it never reads `allow_device_self_set`, and a
self-assignment naming a channel whose flag is `false` is persisted
(row inserted) like any other. -/
theorem C3_assign_ignores_flag (db : Db) (a : ChannelAssignment)
    (appUuid : String) (c : ChannelRow)
    (happ : resolveAppUuid db a.appId = some appUuid)
    (hch : singleChannel db appUuid a.channel = some c)
    (_hflag : c.allow_device_self_set = false)
    (hnone : maybeSingleDC db a.deviceId c.id = none) :
    assignChannel db a = Except.ok { db with device_channels :=
      db.device_channels ++ [{ id := "", device_id := a.deviceId,
                               channel_id := c.id,
                               platform := a.platform }] } := by
  unfold assignChannel
  simp only [happ, hch, hnone]

/-- Witness for C3: the concrete non-self-assignable channel "beta". -/
theorem C3_assign_ignores_flag_witness :
    assignChannel dbAssign assignBetaReq =
      Except.ok { dbAssign with device_channels :=
        dbAssign.device_channels ++
          [{ id := "", device_id := assignBetaReq.deviceId,
             channel_id := betaChannel.id,
             platform := assignBetaReq.platform }] } :=
  C3_assign_ignores_flag dbAssign assignBetaReq "app-1" betaChannel
    (by decide) (by decide) (by decide) (by decide)

/-! ## Claim C2: stored channel overrides -/

/-- C2: the stored device-channel override is not consulted by
`checkForUpdate`.  Device `dev-1` holds a stored override to channel
"beta" (which has its own newer bundle "2.0.0"), but a check-in with
only a `defaultChannel` hint of "production" resolves to "production"
and is served production's bundle "1.2.0" — the hint wins over the
stored override, contradicting the claimed precedence. -/
theorem C2_override_ignored :
    dbOverride.device_channels = [betaOverrideRow] ∧
      betaOverrideRow.device_id = "dev-1" ∧
      betaOverrideRow.channel_id = betaChannel.id ∧
      betaChannel.name = "beta" ∧
      reqOverride.deviceId = some "dev-1" ∧
      reqOverride.channel = none ∧
      reqOverride.defaultChannel = some "production" ∧
      channelToUse reqOverride = "production" ∧
      prodChannel.current_version_id = some bundle120.id ∧
      (checkForUpdate dbOverride honest reqOverride).map Prod.fst =
        Except.ok (availableFor bundle120) ∧
      (availableFor bundle120).version_name = some "1.2.0" ∧
      bundleBeta.version_name = "2.0.0" := by decide

/-! ## Claim C10: the legacy channel listing -/

/-- C10: every entry of the legacy `getAvailableChannels` listing
carries the hard-coded capability flags `public = true` and
`allow_self_set = true` (regardless of any stored policy), its id
equals its name, and the listing is exactly the first-occurrence
de-duplication of the `channel` values of the (first 100) active
`updates` rows for the app and platform — it is derived from update
rows, not from channel records. -/
theorem C10_channels_hardcoded (updates : List LegacyUpdateRow)
    (appId plat : String) :
    (∀ ci ∈ getAvailableChannels updates appId plat,
      ci.public = true ∧ ci.allow_self_set = true ∧ ci.id = ci.name ∧
        ∃ u ∈ updates, u.app_id = appId ∧ u.platform = plat ∧
          u.active = true ∧ u.channel = ci.name) ∧
      (getAvailableChannels updates appId plat).map (fun ci => ci.name) =
        dedupFirst (((updates.filter (fun u => u.app_id = appId ∧
          u.platform = plat ∧ u.active = true)).take 100).map
            (fun u => u.channel)) := by
  constructor
  · intro ci hci
    simp only [getAvailableChannels] at hci
    rw [List.mem_map] at hci
    obtain ⟨ch, hch, rfl⟩ := hci
    refine ⟨rfl, rfl, rfl, ?_⟩
    have hch2 := mem_of_mem_dedupFirstAux _ _ hch
    rw [List.mem_map] at hch2
    obtain ⟨u, hu, rfl⟩ := hch2
    have hu2 := List.take_subset _ _ hu
    rw [List.mem_filter] at hu2
    have hu3 := of_decide_eq_true hu2.2
    exact ⟨u, hu2.1, hu3.1, hu3.2.1, hu3.2.2, rfl⟩
  · simp only [getAvailableChannels, List.map_map]
    exact List.map_id _

/-- Witness for C10: the concrete listing over `exUpdates` returns the
channel "prod" with both capability flags hard-coded to true. -/
theorem C10_channels_hardcoded_witness :
    prodInfo.public = true ∧ prodInfo.allow_self_set = true ∧
      prodInfo.id = prodInfo.name ∧
      ∃ u ∈ exUpdates, u.app_id = "com.example.app" ∧
        u.platform = "android" ∧ u.active = true ∧
        u.channel = prodInfo.name :=
  (C10_channels_hardcoded exUpdates "com.example.app" "android").1
    prodInfo (by decide)

/-! ## Anatomy of a successful `checkForUpdate` call (for C4 and C9) -/

/-- Whenever `checkForUpdate` returns at all (any oracle), the response
is the pure decision computed from the catalog and comparator, and the
resulting database is either untouched or produced by the side-effect
block. -/
theorem checkForUpdate_ok_inv (db : Db) (o : WriteOracle)
    (r : UpdateRequest) (resp : UpdateResponse) (db2 : Db)
    (h : checkForUpdate db o r = Except.ok (resp, db2)) :
    resp = pureDecision db r ∧
      (db2 = db ∨ ∃ u c b, checkSideEffects db o r u c b =
        Except.ok db2) := by
  unfold pureDecision
  cases happ : resolveAppUuid db r.appId with
  | none =>
    rw [checkForUpdate_app_not_found db o r happ] at h
    injection h with h1
    exact ⟨(congrArg Prod.fst h1).symm, Or.inl (congrArg Prod.snd h1).symm⟩
  | some appUuid =>
    simp only [happ]
    cases hch : singleChannel db appUuid (channelToUse r) with
    | none =>
      rw [checkForUpdate_no_channel db o r appUuid happ hch] at h
      injection h with h1
      exact ⟨(congrArg Prod.fst h1).symm, Or.inl (congrArg Prod.snd h1).symm⟩
    | some c =>
      simp only [hch]
      cases hb : bundleOf db c with
      | none =>
        rw [checkForUpdate_no_bundle db o r appUuid c happ hch hb] at h
        injection h with h1
        exact ⟨(congrArg Prod.fst h1).symm,
          Or.inl (congrArg Prod.snd h1).symm⟩
      | some b =>
        simp only [hb]
        by_cases hplat : r.platform ≠ "" ∧ b.platform ≠ r.platform
        · rw [checkForUpdate_platform_mismatch db o r appUuid c b happ hch
            hb hplat] at h
          rw [if_pos hplat]
          injection h with h1
          exact ⟨(congrArg Prod.fst h1).symm,
            Or.inl (congrArg Prod.snd h1).symm⟩
        · rw [checkForUpdate_resolved db o r appUuid c b happ hch hb
            hplat] at h
          rw [if_neg hplat]
          by_cases hnew : ¬(compareVersions b.version_name
              (normCurrentVersion r) > 0)
          · rw [if_pos hnew] at h
            rw [if_pos hnew]
            injection h with h1
            exact ⟨(congrArg Prod.fst h1).symm,
              Or.inl (congrArg Prod.snd h1).symm⟩
          · rw [if_neg hnew] at h
            rw [if_neg hnew]
            by_cases hgate : minNativeRequired b > 0 ∧
                userNativeVersion r < minNativeRequired b
            · rw [if_pos hgate] at h
              rw [if_pos hgate]
              injection h with h1
              exact ⟨(congrArg Prod.fst h1).symm,
                Or.inl (congrArg Prod.snd h1).symm⟩
            · rw [if_neg hgate] at h
              rw [if_neg hgate]
              cases hse : checkSideEffects db o r appUuid c b with
              | error e =>
                rw [hse] at h
                exact absurd h (by simp)
              | ok db3 =>
                rw [hse] at h
                injection h with h1
                refine ⟨(congrArg Prod.fst h1).symm, Or.inr
                  ⟨appUuid, c, b, ?_⟩⟩
                rw [hse]
                exact congrArg Except.ok (congrArg Prod.snd h1)

/-- Under the honest oracle, `checkForUpdate` always returns the pure
decision. -/
theorem checkForUpdate_honest_total (db : Db) (r : UpdateRequest) :
    ∃ db2, checkForUpdate db honest r =
      Except.ok (pureDecision db r, db2) := by
  cases happ : resolveAppUuid db r.appId with
  | none =>
    refine ⟨db, ?_⟩
    rw [checkForUpdate_app_not_found db honest r happ]
    unfold pureDecision
    rw [happ]
  | some appUuid =>
    cases hch : singleChannel db appUuid (channelToUse r) with
    | none =>
      refine ⟨db, ?_⟩
      rw [checkForUpdate_no_channel db honest r appUuid happ hch]
      unfold pureDecision
      simp only [happ, hch]
    | some c =>
      cases hb : bundleOf db c with
      | none =>
        refine ⟨db, ?_⟩
        rw [checkForUpdate_no_bundle db honest r appUuid c happ hch hb]
        unfold pureDecision
        simp only [happ, hch, hb]
      | some b =>
        by_cases hplat : r.platform ≠ "" ∧ b.platform ≠ r.platform
        · refine ⟨db, ?_⟩
          rw [checkForUpdate_platform_mismatch db honest r appUuid c b happ
            hch hb hplat]
          unfold pureDecision
          simp only [happ, hch, hb]
          rw [if_pos hplat]
        · rw [checkForUpdate_resolved db honest r appUuid c b happ hch hb
            hplat]
          unfold pureDecision
          simp only [happ, hch, hb]
          rw [if_neg hplat]
          by_cases hnew : ¬(compareVersions b.version_name
              (normCurrentVersion r) > 0)
          · rw [if_pos hnew, if_pos hnew]
            exact ⟨db, rfl⟩
          · rw [if_neg hnew, if_neg hnew]
            by_cases hgate : minNativeRequired b > 0 ∧
                userNativeVersion r < minNativeRequired b
            · rw [if_pos hgate, if_pos hgate]
              exact ⟨db, rfl⟩
            · rw [if_neg hgate, if_neg hgate]
              obtain ⟨db2, hse⟩ := checkSideEffects_honest_ok db r appUuid
                c b
              rw [hse]
              exact ⟨db2, rfl⟩

/-! ## Claim C4: the side effects and the decision -/

/-- C4 counterexample: a failing `update_logs` insert on the
update-available path does change what `checkForUpdate` returns — the
whole call throws ("Insert failed") instead of returning the decision,
which with the same catalog and succeeding writes is the
update-available response. -/
theorem C4_counterexample :
    checkForUpdate baseDb { logInsertFails := true, dcInsertFails := false }
        reqWithDevice = Except.error "Insert failed" ∧
      pureDecision baseDb reqWithDevice = availableFor bundle120 ∧
      (checkForUpdate baseDb honest reqWithDevice).map Prod.fst =
        Except.ok (availableFor bundle120) := by decide

/-- C4 (amended): the side-effect writes never alter the content of the
decision — any successful `checkForUpdate` call, under any oracle,
returns exactly the pure decision computed from the catalog and
comparator, and when every write succeeds the call does return it; but
a failing side-effect write on the update-available path makes the call
propagate an error instead of returning the decision (see the
counterexample). -/
theorem C4_decision_isolated :
    (∀ (db : Db) (o : WriteOracle) (r : UpdateRequest)
        (resp : UpdateResponse) (db2 : Db),
      checkForUpdate db o r = Except.ok (resp, db2) →
      resp = pureDecision db r) ∧
    (∀ (db : Db) (r : UpdateRequest), ∃ db2,
      checkForUpdate db honest r =
        Except.ok (pureDecision db r, db2)) :=
  ⟨fun db o r resp db2 h => (checkForUpdate_ok_inv db o r resp db2 h).1,
    checkForUpdate_honest_total⟩

/-- Witness for C4: the concrete check-in of `dev-9` returns exactly
the pure decision. -/
theorem C4_decision_isolated_witness :
    availableFor bundle120 = pureDecision baseDb reqWithDevice :=
  C4_decision_isolated.1 baseDb honest reqWithDevice
    (availableFor bundle120) dbAfterCheck (by decide)

/-! ## Claim C9: row uniqueness in device_channels -/

/-- With the `(deviceId, channelId)` invariant holding, a `none` from
`maybeSingle` means no row at all matches the pair. -/
theorem maybeSingleDC_none_count {db : Db} {dev ch : String}
    (hinv : atMostOnePerPair db.device_channels)
    (hnone : maybeSingleDC db dev ch = none) :
    pairCount db.device_channels dev ch = 0 := by
  have h1 := hinv dev ch
  unfold maybeSingleDC at hnone
  unfold pairCount at h1 ⊢
  rw [List.countP_eq_length_filter] at h1 ⊢
  rcases hfil : db.device_channels.filter
      (fun x => x.device_id = dev ∧ x.channel_id = ch) with - | ⟨x, - | ⟨y, t⟩⟩
  · rw [hfil]
    rfl
  · rw [hfil] at hnone
    exact absurd hnone (by simp)
  · rw [hfil] at h1
    simp at h1

/-- Appending one row whose pair is not yet present preserves the
pair-uniqueness invariant. -/
theorem atMostOne_insert {l : List DeviceChannelRow}
    {row : DeviceChannelRow} (hinv : atMostOnePerPair l)
    (hzero : pairCount l row.device_id row.channel_id = 0) :
    atMostOnePerPair (l ++ [row]) := by
  intro d c
  unfold pairCount at *
  rw [List.countP_append]
  by_cases hmatch : row.device_id = d ∧ row.channel_id = c
  · obtain ⟨h1, h2⟩ := hmatch
    subst h1
    subst h2
    rw [hzero]
    simp [List.countP_cons]
  · have hone : List.countP
        (fun x => decide (x.device_id = d ∧ x.channel_id = c)) [row] = 0 := by
      simp only [List.countP_cons, List.countP_nil]
      simp [hmatch]
    rw [hone]
    have := hinv d c
    unfold pairCount at this
    omega

/-- Rewriting only the `platform` field of some rows preserves the
pair-uniqueness invariant. -/
theorem atMostOne_map_platform {l : List DeviceChannelRow}
    (hinv : atMostOnePerPair l) (eid p : String) :
    atMostOnePerPair (l.map (fun row =>
      if row.id = eid then { row with platform := p } else row)) := by
  intro d c
  unfold pairCount
  rw [List.countP_map]
  rw [List.countP_congr (q := fun x =>
    decide (x.device_id = d ∧ x.channel_id = c)) ?_]
  · exact hinv d c
  · intro x _
    by_cases hid : x.id = eid <;> simp [hid, Function.comp]

/-- The register step of the check-in preserves pair-uniqueness. -/
theorem registerDeviceChannel_preserves (db1 : Db) (o : WriteOracle)
    (dev chId plat : String) (db2 : Db)
    (hinv : atMostOnePerPair db1.device_channels)
    (h : registerDeviceChannel db1 o dev chId plat = Except.ok db2) :
    atMostOnePerPair db2.device_channels := by
  unfold registerDeviceChannel at h
  cases hms : maybeSingleDC db1 dev chId with
  | some x =>
    rw [hms] at h
    injection h with h1
    rw [← h1]
    exact hinv
  | none =>
    rw [hms] at h
    by_cases hfail : o.dcInsertFails = true
    · rw [if_pos hfail] at h
      exact absurd h (by simp)
    · rw [if_neg hfail] at h
      injection h with h1
      rw [← h1]
      exact atMostOne_insert hinv (maybeSingleDC_none_count hinv hms)

/-- The whole side-effect block preserves pair-uniqueness. -/
theorem checkSideEffects_preserves (db : Db) (o : WriteOracle)
    (r : UpdateRequest) (u : String) (c : ChannelRow) (b : VersionRow)
    (db2 : Db) (hinv : atMostOnePerPair db.device_channels)
    (hse : checkSideEffects db o r u c b = Except.ok db2) :
    atMostOnePerPair db2.device_channels := by
  unfold checkSideEffects at hse
  by_cases hdev : jsTruthy r.deviceId = true
  · rw [if_pos hdev] at hse
    by_cases hfail : o.logInsertFails = true
    · rw [if_pos hfail] at hse
      exact absurd hse (by simp)
    · rw [if_neg hfail] at hse
      exact registerDeviceChannel_preserves
        { db with update_logs := db.update_logs ++ [checkLogRow r u b] }
        o (r.deviceId.getD "") c.id r.platform db2 hinv hse
  · rw [if_neg hdev] at hse
    injection hse with h1
    rw [← h1]
    exact hinv

/-- C9 counterexample: `dev-1` holds one `device_channels` row (channel
"beta" of app-1); `assignChannel` to "production" of the same app
inserts a second row instead of updating the existing one, so two rows
for the `(app, deviceId)` pair exist afterwards. -/
theorem C9_counterexample :
    appDeviceCount dbOverride "app-1" "dev-1" = 1 ∧
      betaChannel.app_id = "app-1" ∧ prodChannel.app_id = "app-1" ∧
      (assignChannel dbOverride assignProdReq).map
          (fun d => appDeviceCount d "app-1" "dev-1") =
        Except.ok 2 := by decide

/-- C9 (amended): the write paths key `device_channels` on
`(deviceId, channelId)`, not `(app, deviceId)`: both `assignChannel`
and `checkForUpdate` preserve "at most one row per (deviceId,
channelId) pair" — an existing row for the pair is updated, a missing
one inserted — but re-assigning a device to a different channel of the
same app inserts an additional row (see the counterexample), so
uniqueness per `(app, deviceId)` does not hold. -/
theorem C9_pair_uniqueness_preserved :
    (∀ (db : Db) (a : ChannelAssignment) (db2 : Db),
      atMostOnePerPair db.device_channels →
      assignChannel db a = Except.ok db2 →
      atMostOnePerPair db2.device_channels) ∧
    (∀ (db : Db) (o : WriteOracle) (r : UpdateRequest)
        (resp : UpdateResponse) (db2 : Db),
      atMostOnePerPair db.device_channels →
      checkForUpdate db o r = Except.ok (resp, db2) →
      atMostOnePerPair db2.device_channels) := by
  constructor
  · intro db a db2 hinv h
    unfold assignChannel at h
    cases happ : resolveAppUuid db a.appId with
    | none =>
      rw [happ] at h
      exact absurd h (by simp)
    | some u =>
      simp only [happ] at h
      cases hch : singleChannel db u a.channel with
      | none =>
        simp only [hch] at h
        exact absurd h (by simp)
      | some c =>
        simp only [hch] at h
        cases hms : maybeSingleDC db a.deviceId c.id with
        | some ex =>
          simp only [hms] at h
          injection h with h1
          rw [← h1]
          exact atMostOne_map_platform hinv ex.id a.platform
        | none =>
          simp only [hms] at h
          injection h with h1
          rw [← h1]
          exact atMostOne_insert hinv (maybeSingleDC_none_count hinv hms)
  · intro db o r resp db2 hinv h
    rcases (checkForUpdate_ok_inv db o r resp db2 h).2 with h1 | ⟨u, c, b, hse⟩
    · rw [h1]
      exact hinv
    · exact checkSideEffects_preserves db o r u c b db2 hinv hse

/-- Witness for C9: the concrete re-assignment preserves the
`(deviceId, channelId)` invariant (while violating the claim's
`(app, deviceId)` granularity, as the counterexample shows). -/
theorem C9_pair_uniqueness_preserved_witness :
    atMostOnePerPair dbAfterReassign.device_channels :=
  C9_pair_uniqueness_preserved.1 dbOverride assignProdReq dbAfterReassign
    (by
      intro d c
      simp only [dbOverride, baseDb, pairCount, List.countP_cons,
        List.countP_nil]
      split_ifs <;> omega)
    (by decide)

end Capucho
